import Mathlib

/-!
Verification of the setup bootstrap utility (src/setup.py).

The script is a thin orchestrator: it loads a JSON configuration, locates a
matching interpreter, parses CLI mode tokens, and dispatches one of three
modes, each performing a subset of the side effects
(remove environment, create environment, install dependencies, run script),
followed by a temp-file cleanup step.

The shallow embedding below models the filesystem state the script inspects
(existence of the config file, the environment directory, the requirements
file, the main file and the temp file) and records every externally visible
operation in an effect trace.  Child-process invocations are modeled as
succeeding; the trace records which operations were invoked, which is what
the claims are about.
-/

namespace Setup

/-- One externally visible operation performed by the script.  Effects that
are filesystem writes: removing the venv directory, creating it (with its
pip upgrade), creating a default requirements or main file, installing
dependencies into the venv, removing a file, and writing the default config
file.  Running the main script is a child-process invocation. -/
inductive Effect where
  | removeEnv
  | createEnv (python : String)
  | upgradePip
  | createReqFile
  | installDeps
  | createMainFile
  | runScript (args : List String)
  | removeFile (name : String)
  | writeConfig
deriving Repr, DecidableEq

/-- Which effects write to the filesystem (running the main script is a
child-process invocation whose own writes are out of scope). -/
def Effect.writesFS : Effect → Bool
  | .removeEnv => true
  | .createEnv _ => true
  | .upgradePip => true
  | .createReqFile => true
  | .installDeps => true
  | .createMainFile => true
  | .runScript _ => false
  | .removeFile _ => true
  | .writeConfig => true

/-- The five-field configuration record persisted as setup-config.json. -/
structure Config where
  project_name : String
  main_file : String
  requirements_file : String
  venv_dir : String
  python_version : String
deriving Repr, DecidableEq

/-- The default record load_config writes when setup-config.json is absent
(src/setup.py lines 15-21). -/
def defaultConfig : Config :=
  { project_name := "UnnamedProject"
    main_file := "main.py"
    requirements_file := "requirements.txt"
    venv_dir := "venv"
    python_version := "3.12" }

/-- load_config (src/setup.py lines 7-31), over the parsed content of the
config file (none = file absent).  Returns the loaded record and the file
content afterwards: when the file is absent it writes the default record and
reads it back. -/
def load_config (file : Option Config) : Config × Option Config :=
  match file with
  | none => (defaultConfig, some defaultConfig)
  | some c => (c, some c)

/-- The abstract filesystem state the script inspects and mutates. -/
structure FS where
  configFile : Option Config
  venvExists : Bool
  reqFileExists : Bool
  mainFileExists : Bool
  tempFileExists : Bool
deriving Repr, DecidableEq

/-- Whether a CLI argument is one of the three mode tokens
(src/setup.py line 151). -/
def isModeToken (arg : String) : Bool :=
  arg = "install-only" || arg = "run-only" || arg = "full"

/-- One iteration of the argument-scanning loop (src/setup.py lines 150-154):
a mode token overwrites the mode, the clean flag latches true. -/
def parseStep (acc : Option String × Bool) (arg : String) : Option String × Bool :=
  if isModeToken arg then (some arg, acc.2)
  else if arg = "--clean" then (acc.1, true)
  else acc

/-- The argument scan of src/setup.py lines 146-154: mode starts at None,
clean_requested starts false. -/
def parseArgs (args : List String) : Option String × Bool :=
  args.foldl parseStep (none, false)

/-- The selected mode string after the default (src/setup.py line 156). -/
def modeOf (args : List String) : String :=
  (parseArgs args).1.getD "full"

/-- Whether --clean was requested. -/
def cleanOf (args : List String) : Bool :=
  (parseArgs args).2

/-- The arguments forwarded to the main script (src/setup.py line 108):
every CLI argument that is not a mode token and not the clean flag, in
order. -/
def forwardedArgs (argv : List String) : List String :=
  argv.filter (fun arg => !(["install-only", "run-only", "full", "--clean"].contains arg))

/-- create_virtualenv (src/setup.py lines 66-77): runs the venv module with
the chosen interpreter, then upgrades pip inside the environment. -/
def create_virtualenv (python_exe : String) (fs : FS) : List Effect × FS :=
  ([Effect.createEnv python_exe, Effect.upgradePip], { fs with venvExists := true })

/-- install_requirements (src/setup.py lines 79-92): creates an empty
requirements file when absent, then always invokes pip install -r. -/
def install_requirements (fs : FS) : List Effect × FS :=
  if fs.reqFileExists then
    ([Effect.installDeps], fs)
  else
    ([Effect.createReqFile, Effect.installDeps], { fs with reqFileExists := true })

/-- run_main_script (src/setup.py lines 94-109): synthesizes a default main
file when absent, then runs it with the filtered CLI arguments. -/
def run_main_script (argv : List String) (fs : FS) : List Effect × FS :=
  if fs.mainFileExists then
    ([Effect.runScript (forwardedArgs argv)], fs)
  else
    ([Effect.createMainFile, Effect.runScript (forwardedArgs argv)],
      { fs with mainFileExists := true })

/-- cleanup_temp_files (src/setup.py lines 111-124): when the fixed-name temp
file exists, attempts its removal; a removal failure (removeOk = false) is
caught and logged, so the function returns normally either way. -/
def cleanup_temp_files (removeOk : Bool) (fs : FS) : List Effect × FS :=
  if fs.tempFileExists then
    if removeOk then
      ([Effect.removeFile "tempCodeRunnerFile.py"], { fs with tempFileExists := false })
    else
      ([Effect.removeFile "tempCodeRunnerFile.py"], fs)
  else
    ([], fs)

/-- The observable outcome of one run: the effect trace, the process exit
status, the final filesystem state, whether the not-found warning was
emitted, and the interpreter handed to environment creation. -/
structure RunResult where
  trace : List Effect
  exitCode : Nat
  fs : FS
  warned : Bool
  usedPython : String
deriving Repr, DecidableEq

/-- The mode dispatch of main (src/setup.py lines 137-181), after the config
has been loaded.  foundPython is the result of the interpreter search;
currentPython is sys.executable.  The unknown-mode branch (lines 176-179)
is kept although the scan only ever produces the three tokens. -/
def main (argv : List String) (foundPython : Option String) (currentPython : String)
    (removeOk : Bool) (fs0 : FS) : RunResult :=
  let selected := foundPython.getD currentPython
  let warned := foundPython.isNone
  let mode := modeOf argv
  let cleanRequested := cleanOf argv
  let (t0, fs1) :=
    if cleanRequested && fs0.venvExists then
      ([Effect.removeEnv], { fs0 with venvExists := false })
    else
      (([] : List Effect), fs0)
  if mode = "install-only" then
    let (t1, fs2) := if fs1.venvExists then (([] : List Effect), fs1)
                     else create_virtualenv selected fs1
    let (t2, fs3) := install_requirements fs2
    let (t3, fs4) := cleanup_temp_files removeOk fs3
    ⟨t0 ++ t1 ++ t2 ++ t3, 0, fs4, warned, selected⟩
  else if mode = "run-only" then
    if fs1.venvExists then
      let (t1, fs2) := run_main_script argv fs1
      let (t2, fs3) := cleanup_temp_files removeOk fs2
      ⟨t0 ++ t1 ++ t2, 0, fs3, warned, selected⟩
    else
      ⟨t0, 1, fs1, warned, selected⟩
  else if mode = "full" then
    let (t1, fs2) := if fs1.venvExists then (([] : List Effect), fs1)
                     else create_virtualenv selected fs1
    let (t2, fs3) := install_requirements fs2
    let (t3, fs4) := run_main_script argv fs3
    let (t4, fs5) := cleanup_temp_files removeOk fs4
    ⟨t0 ++ t1 ++ t2 ++ t3 ++ t4, 0, fs5, warned, selected⟩
  else
    ⟨t0, 1, fs1, warned, selected⟩

/-- The whole run: load_config first (src/setup.py line 130, writing the
default config file when absent), then the mode dispatch. -/
def program (argv : List String) (foundPython : Option String) (currentPython : String)
    (removeOk : Bool) (fs0 : FS) : RunResult :=
  let loaded := load_config fs0.configFile
  let wtrace : List Effect :=
    if fs0.configFile.isSome then [] else [Effect.writeConfig]
  let fs1 := { fs0 with configFile := loaded.2 }
  let r := main argv foundPython currentPython removeOk fs1
  { r with trace := wtrace ++ r.trace }

/-- Python str.strip with no argument: removes leading and trailing
whitespace (src/setup.py line 47 applies it to the version output). -/
def pyStrip (s : String) : String :=
  String.mk (((s.data.dropWhile Char.isWhitespace).reverse.dropWhile
    Char.isWhitespace).reverse)

/-- Python str.endswith: the suffix test of src/setup.py line 47. -/
def pyEndsWith (s suffix : String) : Bool :=
  suffix.data.isSuffixOf s.data

/-- Trying each candidate in order (the loop of src/setup.py lines 44-50):
probe cmd is the decoded output of cmd --version, none when the invocation
raised; a raising or non-matching candidate is skipped. -/
def tryCandidates (probe : String → Option String) (version : String) :
    List String → Option String
  | [] => none
  | cmd :: rest =>
    match probe cmd with
    | none => tryCandidates probe version rest
    | some output =>
      if pyEndsWith (pyStrip output) version then some cmd
      else tryCandidates probe version rest

/-- find_python_executable (src/setup.py lines 33-51).  Building the
candidate list indexes version[0] (the first character); on the empty
string that indexing raises IndexError before any candidate is probed, and
nothing catches it; this uncaught exception is the error case. -/
def find_python_executable (probe : String → Option String) (version : String) :
    Except String (Option String) :=
  match version.data with
  | [] => Except.error "IndexError: string index out of range"
  | c :: _ =>
    Except.ok (tryCandidates probe version
      ["python" ++ version, "python" ++ String.mk [c], "python"])

/-- The caller side (src/setup.py lines 139-144 in context): the locator runs
first; an uncaught exception aborts the process, otherwise main runs with
the locator result. -/
def main_with_locator (probe : String → Option String) (argv : List String)
    (version currentPython : String) (removeOk : Bool) (fs0 : FS) :
    Except String RunResult :=
  match find_python_executable probe version with
  | Except.error e => Except.error e
  | Except.ok found => Except.ok (main argv found currentPython removeOk fs0)

/-! Spec-side definitions, written from the words of the specification, for
the refinement-style claims. -/

/-- Modelled from the spec: candidate command names in the order
python(version), python(major), python, where the major version is the
first character of the version string. -/
def specCandidates (version : String) : List String :=
  ["python" ++ version, "python" ++ String.mk (version.data.take 1), "python"]

/-- Modelled from the spec: a candidate is accepted exactly when its
--version output, stripped, ends with the exact desired version string. -/
def accepts (probe : String → Option String) (version cmd : String) : Bool :=
  match probe cmd with
  | some output => pyEndsWith (pyStrip output) version
  | none => false

/-- Modelled from the spec: the selected mode is the last occurring mode
token among the arguments. -/
def lastModeToken (args : List String) : Option String :=
  args.reverse.find? isModeToken

/-- Modelled from the spec: last mode token wins, full when absent. -/
def selectedModeSpec (args : List String) : String :=
  (lastModeToken args).getD "full"

/-! Trace queries for the four side effects of the specification. -/

def isRemoveEnv : Effect → Bool
  | .removeEnv => true
  | _ => false

def isCreateEnv : Effect → Bool
  | .createEnv _ => true
  | _ => false

def isInstallDeps : Effect → Bool
  | .installDeps => true
  | _ => false

def isRunScript : Effect → Bool
  | .runScript _ => true
  | _ => false

def hasRemove (t : List Effect) : Bool := t.any isRemoveEnv
def hasCreate (t : List Effect) : Bool := t.any isCreateEnv
def hasInstall (t : List Effect) : Bool := t.any isInstallDeps
def hasRun (t : List Effect) : Bool := t.any isRunScript

/-! Helper lemmas. -/

/-- The argument scan only ever stores one of the three mode tokens. -/
lemma parseArgs_foldl_fst (args : List String) (init : Option String × Bool) :
    (args.foldl parseStep init).1 = ((args.reverse.find? isModeToken).or init.1) := by
  induction args generalizing init with
  | nil => simp
  | cons a as ih =>
    simp only [List.foldl_cons, List.reverse_cons, List.find?_append, ih]
    cases h : as.reverse.find? isModeToken with
    | some m => simp [Option.or]
    | none =>
      cases hm : isModeToken a with
      | true => simp [parseStep, hm, Option.or]
      | false =>
        by_cases hc : a = "--clean"
        · subst hc
          simp [parseStep, hm, Option.or]
        · simp [parseStep, hm, hc, Option.or]

/-- The selected mode is the last mode token, defaulted to full. -/
lemma modeOf_eq_spec (args : List String) : modeOf args = selectedModeSpec args := by
  unfold modeOf parseArgs selectedModeSpec lastModeToken
  rw [parseArgs_foldl_fst]
  cases h : args.reverse.find? isModeToken with
  | some m => simp [Option.or]
  | none => simp [Option.or]

/-- The selected mode is always one of the three tokens. -/
lemma modeOf_cases (args : List String) :
    modeOf args = "install-only" ∨ modeOf args = "run-only" ∨ modeOf args = "full" := by
  rw [modeOf_eq_spec]
  unfold selectedModeSpec lastModeToken
  cases h : args.reverse.find? isModeToken with
  | none => simp
  | some m =>
    have hm := List.find?_some h
    unfold isModeToken at hm
    simp only [Bool.or_eq_true, decide_eq_true_eq] at hm
    rcases hm with (h1 | h1) | h1 <;> simp [h1]

end Setup

namespace Setup

set_option maxHeartbeats 1000000

/-- Claim C1: for every argument list and initial state, exactly the
documented subset of the side effects (remove environment, create
environment, install dependencies, run script) occurs: removal happens iff
clean was requested and the environment existed; creation happens iff the
mode ensures the environment (install-only or full) and the environment is
absent after the optional clean; installation happens iff the mode is
install-only or full; the script runs iff the mode is full, or run-only with
the environment present after the optional clean.  In particular install-only
never invokes the script runner. -/
theorem C1_mode_effects (argv : List String) (f : Option String) (c : String)
    (ok : Bool) (fs0 : FS) :
    (hasRemove (main argv f c ok fs0).trace = true ↔
      (cleanOf argv = true ∧ fs0.venvExists = true)) ∧
    (hasCreate (main argv f c ok fs0).trace = true ↔
      ((modeOf argv = "install-only" ∨ modeOf argv = "full") ∧
        (fs0.venvExists && !cleanOf argv) = false)) ∧
    (hasInstall (main argv f c ok fs0).trace = true ↔
      (modeOf argv = "install-only" ∨ modeOf argv = "full")) ∧
    (hasRun (main argv f c ok fs0).trace = true ↔
      (modeOf argv = "full" ∨
        (modeOf argv = "run-only" ∧ (fs0.venvExists && !cleanOf argv) = true))) := by
  rcases modeOf_cases argv with hm | hm | hm <;>
    cases hcl : cleanOf argv <;> cases hv : fs0.venvExists <;>
    cases hr : fs0.reqFileExists <;> cases hmf : fs0.mainFileExists <;>
    cases ht : fs0.tempFileExists <;> cases ok <;>
    simp [main, hm, hcl, hv, hr, hmf, ht, create_virtualenv, install_requirements,
      run_main_script, cleanup_temp_files, hasRemove, hasCreate, hasInstall, hasRun,
      isRemoveEnv, isCreateEnv, isInstallDeps, isRunScript, List.any_append]

end Setup

namespace Setup

/-- Claim C2 (counterexample): invoked as run-only with no environment
directory but also no configuration file, the program does perform a
filesystem write before exiting with status 1: the loader creates the
default configuration file.  So the claim that no filesystem writes occur
on every such invocation is false as stated. -/
theorem C2_counterexample :
    (program ["run-only"] none "python" true ⟨none, false, false, false, false⟩).exitCode = 1 ∧
    (program ["run-only"] none "python" true ⟨none, false, false, false, false⟩).trace =
      [Effect.writeConfig] ∧
    ((program ["run-only"] none "python" true
        ⟨none, false, false, false, false⟩).trace.any Effect.writesFS) = true := by
  refine ⟨by decide, by decide, by decide⟩

/-- Claim C2 (amended): in run-only mode with the environment directory
absent, the program exits with status 1 and performs no side effects beyond
the configuration loader: when the configuration file already exists, the
trace is empty and the filesystem is unchanged; when it is absent, the only
effect is writing the default configuration file. -/
theorem C2_run_only_no_env (argv : List String) (f : Option String) (c : String)
    (ok : Bool) (fs0 : FS)
    (hm : modeOf argv = "run-only") (hv : fs0.venvExists = false) :
    (program argv f c ok fs0).exitCode = 1 ∧
    (fs0.configFile.isSome = true →
      (program argv f c ok fs0).trace = [] ∧ (program argv f c ok fs0).fs = fs0) ∧
    (fs0.configFile = none →
      (program argv f c ok fs0).trace = [Effect.writeConfig] ∧
      (program argv f c ok fs0).fs = { fs0 with configFile := some defaultConfig }) := by
  obtain ⟨cf, v, r, mf, t⟩ := fs0
  simp only [FS.venvExists] at hv
  subst hv
  cases cf <;>
    simp [program, main, load_config, hm, defaultConfig]

/-- Claim C2 amended, witnessed at a concrete invocation: run-only with an
existing configuration file and no environment exits with status 1, writes
nothing and leaves the filesystem unchanged. -/
theorem C2_run_only_no_env_witness :
    (program ["run-only"] none "python" true
        ⟨some defaultConfig, false, false, false, false⟩).exitCode = 1 ∧
    (program ["run-only"] none "python" true
        ⟨some defaultConfig, false, false, false, false⟩).trace = [] ∧
    (program ["run-only"] none "python" true
        ⟨some defaultConfig, false, false, false, false⟩).fs =
      ⟨some defaultConfig, false, false, false, false⟩ := by
  have h := C2_run_only_no_env ["run-only"] none "python" true
    ⟨some defaultConfig, false, false, false, false⟩ (by decide) rfl
  exact ⟨h.1, (h.2.1 rfl).1, (h.2.1 rfl).2⟩

/-- Claim C4: when the configuration file is absent, load_config writes the
default record with exactly the documented five field values, persists it,
and reads it back, so loading returns exactly those defaults. -/
theorem C4_default_config :
    load_config none = (defaultConfig, some defaultConfig) ∧
    defaultConfig.project_name = "UnnamedProject" ∧
    defaultConfig.main_file = "main.py" ∧
    defaultConfig.requirements_file = "requirements.txt" ∧
    defaultConfig.venv_dir = "venv" ∧
    defaultConfig.python_version = "3.12" := by
  refine ⟨rfl, rfl, rfl, rfl, rfl, rfl⟩

/-- Claim C6: for every argument list the selected mode is the last occurring
mode token among install-only, run-only, full, and is full when no mode token
is present (last-one-wins, so the tokens are mutually exclusive). -/
theorem C6_last_mode_wins (args : List String) :
    modeOf args = selectedModeSpec args ∧
    (lastModeToken args = none → modeOf args = "full") := by
  refine ⟨modeOf_eq_spec args, fun h => ?_⟩
  rw [modeOf_eq_spec]
  unfold selectedModeSpec
  rw [h]
  rfl

/-- Claim C6, witnessed at concrete argument lists: with two mode tokens the
last one wins, and with no mode token the mode defaults to full. -/
theorem C6_last_mode_wins_witness :
    modeOf ["install-only", "run-only"] =
      selectedModeSpec ["install-only", "run-only"] ∧
    selectedModeSpec ["install-only", "run-only"] = "run-only" ∧
    modeOf ["--foo"] = "full" := by
  refine ⟨(C6_last_mode_wins ["install-only", "run-only"]).1, by decide,
    (C6_last_mode_wins ["--foo"]).2 (by decide)⟩

/-- Claim C7: when --clean is present and the environment directory exists,
the directory is removed first, before the selected mode runs (the trace
starts with the removal), for every mode; and a mode that ensures the
environment exists (install-only or full) re-triggers environment creation
afterward. -/
theorem C7_clean_removes_first (argv : List String) (f : Option String) (c : String)
    (ok : Bool) (fs0 : FS)
    (hcl : cleanOf argv = true) (hv : fs0.venvExists = true) :
    (main argv f c ok fs0).trace.head? = some Effect.removeEnv ∧
    ((modeOf argv = "install-only" ∨ modeOf argv = "full") →
      hasCreate (main argv f c ok fs0).trace = true) := by
  rcases modeOf_cases argv with hm | hm | hm <;>
    cases hr : fs0.reqFileExists <;> cases hmf : fs0.mainFileExists <;>
    cases ht : fs0.tempFileExists <;> cases ok <;>
    simp [main, hm, hcl, hv, hr, hmf, ht, create_virtualenv, install_requirements,
      run_main_script, cleanup_temp_files, hasCreate, isCreateEnv, List.any_append]

/-- Claim C7, witnessed at a concrete invocation: clean with the default
full mode on an existing environment removes it first and re-creates it. -/
theorem C7_clean_removes_first_witness :
    (main ["--clean"] none "python" true
        ⟨some defaultConfig, true, true, true, false⟩).trace.head? =
      some Effect.removeEnv ∧
    hasCreate (main ["--clean"] none "python" true
        ⟨some defaultConfig, true, true, true, false⟩).trace = true := by
  have h := C7_clean_removes_first ["--clean"] none "python" true
    ⟨some defaultConfig, true, true, true, false⟩ (by decide) rfl
  exact ⟨h.1, h.2 (Or.inr (by decide))⟩

/-- Claim C5: the script runner receives exactly the CLI arguments that are
not one of install-only, run-only, full, --clean, in their original order:
every run-script effect in the trace carries exactly the filtered argument
list, the full mode does produce such an effect, and the filter keeps
exactly the non-token arguments. -/
theorem C5_forwarded_args (argv : List String) (f : Option String) (c : String)
    (ok : Bool) (fs0 : FS) :
    (∀ xs, Effect.runScript xs ∈ (main argv f c ok fs0).trace →
      xs = forwardedArgs argv) ∧
    (modeOf argv = "full" →
      Effect.runScript (forwardedArgs argv) ∈ (main argv f c ok fs0).trace) ∧
    forwardedArgs argv = argv.filter (fun arg =>
      decide (¬(arg = "install-only" ∨ arg = "run-only" ∨ arg = "full" ∨
        arg = "--clean"))) := by
  refine ⟨?_, ?_, ?_⟩
  · intro xs hmem
    rcases modeOf_cases argv with hm | hm | hm <;>
      cases hcl : cleanOf argv <;> cases hv : fs0.venvExists <;>
      cases hr : fs0.reqFileExists <;> cases hmf : fs0.mainFileExists <;>
      cases ht : fs0.tempFileExists <;> cases ok <;>
      simp_all [main, hm, hcl, hv, hr, hmf, ht, create_virtualenv,
        install_requirements, run_main_script, cleanup_temp_files]
  · intro hm
    cases hcl : cleanOf argv <;> cases hv : fs0.venvExists <;>
      cases hr : fs0.reqFileExists <;> cases hmf : fs0.mainFileExists <;>
      cases ht : fs0.tempFileExists <;> cases ok <;>
      simp [main, hm, hcl, hv, hr, hmf, ht, create_virtualenv,
        install_requirements, run_main_script, cleanup_temp_files]
  · unfold forwardedArgs
    apply List.filter_congr
    intro a _
    rw [Bool.eq_iff_iff]
    simp

/-- Claim C5, witnessed at the concrete invocation of the claim: with
arguments full, --foo, bar, the launched script receives exactly --foo,
bar. -/
theorem C5_forwarded_args_witness :
    Effect.runScript ["--foo", "bar"] ∈
      (main ["full", "--foo", "bar"] none "python" true
        ⟨some defaultConfig, true, true, true, false⟩).trace ∧
    forwardedArgs ["full", "--foo", "bar"] = ["--foo", "bar"] := by
  have h := (C5_forwarded_args ["full", "--foo", "bar"] none "python" true
    ⟨some defaultConfig, true, true, true, false⟩).2.1 (by decide)
  exact ⟨by simpa using h, by decide⟩

/-- Claim C8: running the full mode twice in succession without --clean does
not re-create the environment on the second run (creation is guarded only by
directory existence, as the iff on the first run shows), but installs the
dependencies and runs the script on both runs. -/
theorem C8_full_twice (argv : List String) (f f2 : Option String) (c c2 : String)
    (ok ok2 : Bool) (fs0 : FS)
    (hm : modeOf argv = "full") (hcl : cleanOf argv = false) :
    hasCreate (main argv f2 c2 ok2 (main argv f c ok fs0).fs).trace = false ∧
    (hasCreate (main argv f c ok fs0).trace = true ↔ fs0.venvExists = false) ∧
    hasInstall (main argv f c ok fs0).trace = true ∧
    hasInstall (main argv f2 c2 ok2 (main argv f c ok fs0).fs).trace = true ∧
    hasRun (main argv f c ok fs0).trace = true ∧
    hasRun (main argv f2 c2 ok2 (main argv f c ok fs0).fs).trace = true := by
  cases hv : fs0.venvExists <;>
    cases hr : fs0.reqFileExists <;> cases hmf : fs0.mainFileExists <;>
    cases ht : fs0.tempFileExists <;> cases ok <;> cases ok2 <;>
    simp [main, hm, hcl, hv, hr, hmf, ht, create_virtualenv, install_requirements,
      run_main_script, cleanup_temp_files, hasCreate, hasInstall, hasRun,
      isCreateEnv, isInstallDeps, isRunScript, List.any_append]

/-- Claim C8, witnessed at a concrete invocation: full mode twice from an
empty state creates the environment only on the first run, and installs and
runs on both. -/
theorem C8_full_twice_witness :
    hasCreate (main ["full"] none "python" true
      (main ["full"] none "python" true
        ⟨some defaultConfig, false, false, false, false⟩).fs).trace = false ∧
    hasCreate (main ["full"] none "python" true
      ⟨some defaultConfig, false, false, false, false⟩).trace = true ∧
    hasRun (main ["full"] none "python" true
      (main ["full"] none "python" true
        ⟨some defaultConfig, false, false, false, false⟩).fs).trace = true := by
  have h := C8_full_twice ["full"] none none "python" "python" true true
    ⟨some defaultConfig, false, false, false, false⟩ (by decide) (by decide)
  exact ⟨h.1, h.2.1.mpr rfl, h.2.2.2.2.2⟩

/-- Claim C9: after mode dispatch completes in every mode, the run attempts
to delete the fixed-name temp file tempCodeRunnerFile.py (the last trace
entry is that removal attempt whenever the temp file exists and the run-only
early exit was not taken); a deletion failure is caught and never fatal (the
trace and the exit status do not depend on whether the removal succeeds, and
the exit status is 1 exactly on the run-only early exit); and on the
run-only early-exit error path the cleanup does not run at all. -/
theorem C9_cleanup_after_dispatch (argv : List String) (f : Option String)
    (c : String) (ok : Bool) (fs0 : FS) :
    (¬(modeOf argv = "run-only" ∧ (fs0.venvExists && !cleanOf argv) = false) →
      fs0.tempFileExists = true →
      (main argv f c ok fs0).trace.getLast? =
        some (Effect.removeFile "tempCodeRunnerFile.py")) ∧
    (main argv f c true fs0).trace = (main argv f c false fs0).trace ∧
    (main argv f c true fs0).exitCode = (main argv f c false fs0).exitCode ∧
    ((main argv f c ok fs0).exitCode =
      if modeOf argv = "run-only" ∧ (fs0.venvExists && !cleanOf argv) = false
      then 1 else 0) ∧
    (modeOf argv = "run-only" → (fs0.venvExists && !cleanOf argv) = false →
      Effect.removeFile "tempCodeRunnerFile.py" ∉ (main argv f c ok fs0).trace) := by
  rcases modeOf_cases argv with hm | hm | hm <;>
    cases hcl : cleanOf argv <;> cases hv : fs0.venvExists <;>
    cases hr : fs0.reqFileExists <;> cases hmf : fs0.mainFileExists <;>
    cases ht : fs0.tempFileExists <;> cases ok <;>
    simp [main, hm, hcl, hv, hr, hmf, ht, create_virtualenv, install_requirements,
      run_main_script, cleanup_temp_files]

/-- Claim C9, witnessed at concrete invocations: a full run with the temp
file present ends with the removal attempt and exits 0; a run-only early
exit with the temp file present never attempts the removal. -/
theorem C9_cleanup_after_dispatch_witness :
    (main ["full"] none "python" true
      ⟨some defaultConfig, true, true, true, true⟩).trace.getLast? =
        some (Effect.removeFile "tempCodeRunnerFile.py") ∧
    (main ["full"] none "python" true
      ⟨some defaultConfig, true, true, true, true⟩).exitCode = 0 ∧
    Effect.removeFile "tempCodeRunnerFile.py" ∉
      (main ["run-only"] none "python" true
        ⟨some defaultConfig, false, true, true, true⟩).trace := by
  have h1 := C9_cleanup_after_dispatch ["full"] none "python" true
    ⟨some defaultConfig, true, true, true, true⟩
  have h2 := C9_cleanup_after_dispatch ["run-only"] none "python" true
    ⟨some defaultConfig, false, true, true, true⟩
  refine ⟨h1.1 (by decide) rfl, ?_, h2.2.2.2.2 (by decide) (by decide)⟩
  have h3 := h1.2.2.2.1
  simpa using h3

end Setup

namespace Setup

/-- The candidate loop is a first-match search with the acceptance test of
the spec. -/
lemma tryCandidates_eq_find (probe : String → Option String) (version : String) :
    ∀ l : List String, tryCandidates probe version l = l.find? (accepts probe version) := by
  intro l
  induction l with
  | nil => rfl
  | cons cmd rest ih =>
    unfold tryCandidates
    cases h : probe cmd with
    | none => simp [List.find?, accepts, h, ih]
    | some out =>
      by_cases ht : pyEndsWith (pyStrip out) version = true <;>
        simp [List.find?, accepts, h, ht, ih]

/-- The dispatch does not depend on the locator result beyond the warning
flag and the interpreter handed to creation: a not-found result leads to the
warning and the fallback to the current interpreter, with the same trace and
exit status as a run whose locator returned the current interpreter. -/
lemma main_found_independent (argv : List String) (curr : String) (ok : Bool)
    (fs0 : FS) :
    (main argv none curr ok fs0).warned = true ∧
    (main argv none curr ok fs0).usedPython = curr ∧
    (main argv none curr ok fs0).trace = (main argv (some curr) curr ok fs0).trace ∧
    (main argv none curr ok fs0).exitCode =
      (main argv (some curr) curr ok fs0).exitCode := by
  rcases modeOf_cases argv with hm | hm | hm <;>
    cases hcl : cleanOf argv <;> cases hv : fs0.venvExists <;>
    cases hr : fs0.reqFileExists <;> cases hmf : fs0.mainFileExists <;>
    cases ht : fs0.tempFileExists <;> cases ok <;>
    simp [main, hm, hcl, hv, hr, hmf, ht, create_virtualenv, install_requirements,
      run_main_script, cleanup_temp_files]

/-- A concrete probe for the locator: only the command python3 answers, and
reports version 3.12 (with surrounding whitespace to exercise stripping). -/
def probeEx : String → Option String :=
  fun cmd => if cmd = "python3" then some " Python 3.12" else none

/-- Claim C3: for every non-empty desired version string, the locator tries
the candidates python(version), python(major), python in that order and
returns the first one accepted, where a candidate is accepted exactly when
its --version output, stripped, ends with the exact desired version string
(a raising candidate is skipped); and when the result is not-found the
caller does not terminate: it emits the warning, falls back to the currently
running interpreter, and the rest of the run is unchanged. -/
theorem C3_locator (probe : String → Option String) (version : String)
    (argv : List String) (curr : String) (ok : Bool) (fs0 : FS)
    (hv : version ≠ "") :
    find_python_executable probe version =
      Except.ok ((specCandidates version).find? (accepts probe version)) ∧
    (main argv none curr ok fs0).warned = true ∧
    (main argv none curr ok fs0).usedPython = curr ∧
    (main argv none curr ok fs0).trace = (main argv (some curr) curr ok fs0).trace ∧
    (main argv none curr ok fs0).exitCode =
      (main argv (some curr) curr ok fs0).exitCode := by
  have hmain := main_found_independent argv curr ok fs0
  refine ⟨?_, hmain.1, hmain.2.1, hmain.2.2.1, hmain.2.2.2⟩
  obtain ⟨d⟩ := version
  cases d with
  | nil => exact absurd (by decide) hv
  | cons ch rest =>
    simp [find_python_executable, specCandidates, tryCandidates_eq_find]

/-- Claim C3, witnessed at a concrete probe: with only python3 answering
" Python 3.12", the locator picks python3 for version 3.12; and a caller
given a not-found result warns and uses the current interpreter. -/
theorem C3_locator_witness :
    find_python_executable probeEx "3.12" = Except.ok (some "python3") ∧
    (main [] none "python" true
      ⟨some defaultConfig, true, true, true, false⟩).warned = true ∧
    (main [] none "python" true
      ⟨some defaultConfig, true, true, true, false⟩).usedPython = "python" := by
  have h := C3_locator probeEx "3.12" [] "python" true
    ⟨some defaultConfig, true, true, true, false⟩ (by decide)
  have he : (specCandidates "3.12").find? (accepts probeEx "3.12") = some "python3" := by
    decide
  refine ⟨?_, h.2.1, h.2.2.1⟩
  rw [h.1, he]

/-- Claim C10: the locator is total only for non-empty version strings.  For
the empty string, building the candidate list indexes the first character of
the version and raises, before any candidate is probed (the outcome does not
depend on the probe), and the caller crashes instead of falling back.  For
every non-empty version string the locator returns a result without raising,
and the caller proceeds with it. -/
theorem C10_empty_version_raises (probe probe2 : String → Option String)
    (argv : List String) (curr : String) (ok : Bool) (fs0 : FS) (version : String) :
    (version = "" →
      find_python_executable probe version =
        Except.error "IndexError: string index out of range" ∧
      find_python_executable probe version = find_python_executable probe2 version ∧
      main_with_locator probe argv version curr ok fs0 =
        Except.error "IndexError: string index out of range") ∧
    (version ≠ "" →
      find_python_executable probe version =
        Except.ok (tryCandidates probe version (specCandidates version)) ∧
      main_with_locator probe argv version curr ok fs0 =
        Except.ok (main argv (tryCandidates probe version (specCandidates version))
          curr ok fs0)) := by
  constructor
  · intro h
    subst h
    exact ⟨rfl, rfl, rfl⟩
  · intro h
    have hfind : find_python_executable probe version =
        Except.ok (tryCandidates probe version (specCandidates version)) := by
      obtain ⟨d⟩ := version
      cases d with
      | nil => exact absurd (by decide) h
      | cons ch rest => simp [find_python_executable, specCandidates]
    refine ⟨hfind, ?_⟩
    unfold main_with_locator
    rw [hfind]

/-- Claim C10, witnessed at concrete inputs: the empty version string makes
the locator (and hence the whole run) fail with the IndexError, while the
version string 3 succeeds with an ok result. -/
theorem C10_empty_version_raises_witness :
    find_python_executable probeEx "" =
      Except.error "IndexError: string index out of range" ∧
    main_with_locator probeEx [] "" "python" true
      ⟨some defaultConfig, true, true, true, false⟩ =
      Except.error "IndexError: string index out of range" ∧
    find_python_executable probeEx "3" =
      Except.ok (tryCandidates probeEx "3" (specCandidates "3")) := by
  have h1 := (C10_empty_version_raises probeEx probeEx [] "python" true
    ⟨some defaultConfig, true, true, true, false⟩ "").1 rfl
  have h2 := (C10_empty_version_raises probeEx probeEx [] "python" true
    ⟨some defaultConfig, true, true, true, false⟩ "3").2 (by decide)
  exact ⟨h1.1, h1.2.2, h2.1⟩

end Setup
